import Mathlib

/-!
Shallow embedding of the TREVEE multi-chain supply API
(repository Figu3/trevee-supply-api), covering the freshness-tiered
cache, the retry wrapper, the RPC-endpoint fallback, the per-chain and
cross-chain supply aggregation and the three HTTP supply handlers of
the enhanced server variant (src/trevee-supply-api-enhanced.js), with
the basic variant's excluded-address list and the serverless variant
(src/api/_lib/blockchain.js) sharing the same retry/fallback code
shape.

Modelling conventions: JavaScript BigInt values are `Int`; wall-clock
instants (`Date.now()`) are explicit `Int` parameters `now`; an async
operation that either resolves or rejects is a function into `Except`;
the outcome of the i-th invocation of a retried operation is `fn i`,
and the chain state visible through an RPC endpoint is a `ChainView`.
Instrumented variants additionally return the number of invocations
performed and the list of backoff delays awaited, so that claims about
"at most N attempts" and "waits baseDelay * 2^i" are statable.
-/

namespace TreveeSupply

/-! ### Cache model

From src/trevee-supply-api-enhanced.js lines 79-188.  A cache entry
stores an optional value and the timestamp of its last refresh.  The
JavaScript code tests `!cached.value`, i.e. JS truthiness of the
stored value; for the string-valued entries (`circulating`, `total`)
the empty string is falsy, for the object-valued entry (`detailed`)
every stored object is truthy.  The embedding threads the truthiness
test `tr` explicitly. -/

def CACHE_TTL : Int := 60000

def STALE_WHILE_REVALIDATE : Int := 300000

structure CacheEntry (α : Type) where
  value : Option α
  timestamp : Int
  deriving Repr, DecidableEq

/-- JS truthiness of the optional stored value (`!cached.value`). -/
def entryHasValue (tr : α → Bool) (e : CacheEntry α) : Bool :=
  match e.value with
  | none => false
  | some v => tr v

/-- isCacheFresh (enhanced variant, lines 142-148). -/
def isCacheFresh (tr : α → Bool) (e : CacheEntry α) (now : Int) : Bool :=
  entryHasValue tr e && decide (now - e.timestamp < CACHE_TTL)

/-- isCacheStale (enhanced variant, lines 153-159). -/
def isCacheStale (tr : α → Bool) (e : CacheEntry α) (now : Int) : Bool :=
  entryHasValue tr e &&
    (decide (CACHE_TTL ≤ now - e.timestamp) &&
     decide (now - e.timestamp < STALE_WHILE_REVALIDATE))

inductive CacheStatus where
  | HIT
  | STALE
  | MISS
  deriving Repr, DecidableEq

/-- getCacheStatus (enhanced variant, lines 164-168). -/
def getCacheStatus (tr : α → Bool) (e : CacheEntry α) (now : Int) : CacheStatus :=
  if isCacheFresh tr e now then CacheStatus.HIT
  else if isCacheStale tr e now then CacheStatus.STALE
  else CacheStatus.MISS

/-- updateCache (enhanced variant, lines 173-179): the entry is replaced
whole by a new value stamped with the current time. -/
def updateCache (v : α) (now : Int) : CacheEntry α :=
  ⟨some v, now⟩

/-- getCachedValue (enhanced variant, lines 184-188): the stored value, or
none when absent or falsy. -/
def getCachedValue (tr : α → Bool) (e : CacheEntry α) : Option α :=
  match e.value with
  | none => none
  | some v => if tr v then some v else none

/-- Rank of a cache status in the freshness order FRESH < STALE < MISS,
used to state that aging never moves a status backwards. -/
def statusRank : CacheStatus → Nat
  | CacheStatus.HIT => 0
  | CacheStatus.STALE => 1
  | CacheStatus.MISS => 2

/-! ### Retry wrapper

retryWithBackoff (enhanced variant lines 107-119; serverless variant
src/api/_lib/blockchain.js lines 64-73 is the same code with the
constants MAX_RETRIES/RETRY_DELAY set to 2/500 instead of 3/1000; the
embedding takes the base delay and retry count as parameters).  The
JS loop `for (let i = 0; i < retries; i++)` runs `fn` and returns its
value on success; on failure at the last index it rethrows the error
unchanged, otherwise it sleeps `RETRY_DELAY * 2 ** i` and continues;
if the loop body never runs (retries <= 0) the async function resolves
with `undefined`, modelled as `Except.ok none`.

`retryAux fn d i n` runs the loop from index `i` with `n = retries - i`
iterations remaining, returning (outcome, number of invocations of fn,
list of backoff delays awaited, in order). -/

def retryAux (fn : Nat → Except ε β) (d : Nat) :
    Nat → Nat → Except ε (Option β) × Nat × List Nat
  | _, 0 => (Except.ok none, 0, [])
  | i, n + 1 =>
    match fn i with
    | Except.ok v => (Except.ok (some v), 1, [])
    | Except.error e =>
      match n with
      | 0 => (Except.error e, 1, [])
      | m + 1 =>
        let r := retryAux fn d (i + 1) (m + 1)
        (r.1, r.2.1 + 1, d * 2 ^ i :: r.2.2)

/-- retryWithBackoff: run the loop from index 0.  The JS retry count is a
number that may be non-positive, hence `Int` with `toNat` giving the
number of loop iterations actually executed. -/
def retryWithBackoff (fn : Nat → Except ε β) (d : Nat) (retries : Int) :
    Except ε (Option β) × Nat × List Nat :=
  retryAux fn d 0 retries.toNat

/-! ### RPC endpoint fallback

tryRPCEndpoints (enhanced variant lines 124-137; serverless variant
lines 78-89, same code).  Tries each URL in order; remembers the last
error; after the loop it throws `lastError || new Error('All RPC
endpoints failed')` — i.e. the raw last endpoint error when at least
one endpoint was tried, and a fresh generic Error only when the list
was empty.  Errors are `Sum`: `Sum.inl` an error thrown by an endpoint
attempt, `Sum.inr` the generic Error message created by the function
itself.  The second component counts how many endpoints were tried. -/

def tryAux (fn : α → Except ε β) :
    List α → Option ε → Except (ε ⊕ String) β × Nat
  | [], none => (Except.error (Sum.inr "All RPC endpoints failed"), 0)
  | [], some e => (Except.error (Sum.inl e), 0)
  | u :: rest, _ =>
    match fn u with
    | Except.ok v => (Except.ok v, 1)
    | Except.error e =>
      let r := tryAux fn rest (some e)
      (r.1, r.2 + 1)

def tryRPCEndpoints (urls : List α) (fn : α → Except ε β) :
    Except (ε ⊕ String) β × Nat :=
  tryAux fn urls none

/-! ### Per-chain supply aggregation

From src/trevee-supply-api-enhanced.js lines 55-68 (EXCLUDED_ADDRESSES)
and 197-253 (getTotalSupply, getExcludedBalance,
getCirculatingSupplyForChain); the basic variant (source file with the
same Express app, basic version) declares an identical address list.
A `ChainView` is the token-contract state readable through one RPC
endpoint: the totalSupply() result and the balanceOf() results. -/

def EXCLUDED_ADDRESSES : List String := [
  "0x0000000000000000000000000000000000000000",
  "0x000000000000000000000000000000000000dEaD",
  "0x1Ae6DCBc88d6f81A7BCFcCC7198397D776F3592E",
  "0xE2a7De3C3190AFd79C49C8E8f2Fa30Ca78B97DFd",
  "0x7481b40c3453D0b5D9b8f82427c77C2eCAd397d1",
  "0x7481b40c3453D0b5D9b8f82427c77C2eCAd397d1"
]

/-- EXCLUDED_ADDRESSES of the basic server variant (same six entries,
including the repeated Plasma DAO / migration-contract address). -/
def EXCLUDED_ADDRESSES_basic : List String := [
  "0x0000000000000000000000000000000000000000",
  "0x000000000000000000000000000000000000dEaD",
  "0x1Ae6DCBc88d6f81A7BCFcCC7198397D776F3592E",
  "0xE2a7De3C3190AFd79C49C8E8f2Fa30Ca78B97DFd",
  "0x7481b40c3453D0b5D9b8f82427c77C2eCAd397d1",
  "0x7481b40c3453D0b5D9b8f82427c77C2eCAd397d1"
]

structure ChainView where
  totalSupply : Int
  balanceOf : String → Int

/-- getExcludedBalance (enhanced variant lines 207-221): balanceOf is
queried for every list element as given and the results are summed with
`reduce((sum, balance) => sum + balance, 0n)` — no deduplication, no
case normalization. -/
def getExcludedBalance (bal : String → Int) : Int :=
  (EXCLUDED_ADDRESSES.map bal).foldl (· + ·) 0

structure ChainSnapshot where
  chain : String
  totalSupply : Int
  excludedBalance : Int
  circulatingSupply : Int
  deriving Repr, DecidableEq

/-- The snapshot built inside getCirculatingSupplyForChain's innermost
lambda (enhanced variant lines 240-251): BigInt subtraction
`totalSupply - excludedBalance`, exact, no rounding. -/
def mkChainSnapshot (chainName : String) (view : ChainView) : ChainSnapshot :=
  { chain := chainName
    totalSupply := view.totalSupply
    excludedBalance := getExcludedBalance view.balanceOf
    circulatingSupply := view.totalSupply - getExcludedBalance view.balanceOf }

/-- getCirculatingSupplyForChain (enhanced variant lines 236-253):
retryWithBackoff around tryRPCEndpoints around the snapshot
construction.  `query i u` is the chain state read through endpoint `u`
during retry attempt `i` (`Except.error` = that read fails). -/
def getCirculatingSupplyForChain (chainName : String) (rpcUrls : List String)
    (query : Nat → String → Except ε ChainView) (d : Nat) (retries : Int) :
    Except (ε ⊕ String) (Option ChainSnapshot) :=
  (retryWithBackoff
    (fun i =>
      (tryRPCEndpoints rpcUrls
        (fun u => (query i u).map (mkChainSnapshot chainName))).1)
    d retries).1

/-! ### Cross-chain aggregation and formatting

From src/trevee-supply-api-enhanced.js lines 258-304.  The fetching of
the three chains and the decimals is covered by the definitions above;
`getAllChainsCirculatingSupply` here is the totals computation of the
source function applied to the three successful chain snapshots and the
fetched decimals (the enhanced variant sums totalSupply across the
three chains; the wall-clock metadata fields fetchDuration/timestamp
are not modelled).  `formatSupply` is `ethers.formatUnits`. -/

structure GlobalTotals where
  circulatingSupply : Int
  totalSupply : Int
  excludedBalance : Int
  decimals : Nat
  deriving Repr, DecidableEq

structure GlobalData where
  ethereum : ChainSnapshot
  sonic : ChainSnapshot
  plasma : ChainSnapshot
  totals : GlobalTotals
  deriving Repr, DecidableEq

def getAllChainsCirculatingSupply (e s p : ChainSnapshot) (decimals : Nat) :
    GlobalData :=
  { ethereum := e
    sonic := s
    plasma := p
    totals :=
      { circulatingSupply :=
          e.circulatingSupply + s.circulatingSupply + p.circulatingSupply
        totalSupply := e.totalSupply + s.totalSupply + p.totalSupply
        excludedBalance :=
          e.excludedBalance + s.excludedBalance + p.excludedBalance
        decimals := decimals } }

/-- Pad a digit string to `d` digits with leading zeros. -/
def padZeros (s : String) (d : Nat) : String :=
  String.mk (List.replicate (d - s.length) '0') ++ s

/-- Drop trailing zeros from a fractional digit string, keeping at least
one digit. -/
def trimFrac (l : List Char) : List Char :=
  let t := (l.reverse.dropWhile (fun c => c = '0')).reverse
  if t.isEmpty then ['0'] else t

/-- Modelled third-party dependency: ethers v6 `formatUnits(value, d)`
(the repository calls it through formatSupply).  It returns
`FixedNumber.fromValue(value, d).toString()`: sign, integer part
`|value| / 10^d`, a decimal point, then the `d`-digit fractional part
with trailing zeros trimmed but always at least one fractional digit —
so a whole-number value formats as "N.0", never as a bare "N". -/
def formatUnits (value : Int) (decimals : Nat) : String :=
  let v := value.natAbs
  let base := 10 ^ decimals
  let whole := v / base
  let frac := v % base
  let fracStr := padZeros (toString frac) decimals
  (if value < 0 then "-" else "") ++ toString whole ++ "." ++
    String.mk (trimFrac fracStr.data)

/-- formatSupply (enhanced variant lines 302-304). -/
def formatSupply (supply : Int) (decimals : Nat) : String :=
  formatUnits supply decimals

/-! ### HTTP supply handlers (enhanced variant)

From src/trevee-supply-api-enhanced.js lines 83-87 (the cache table)
and 315-468 (the three GET handlers).  A handler is modelled as a
function of the cache table, the current time, and the outcome the
synchronous `getAllChainsCirculatingSupply()` fetch would have (only
consulted on the MISS path).  Background-refresh completion is a
separate step `applyBackgroundRefresh`, since it happens after the
response is sent.  Response headers other than X-Cache, and the
string rendering of the detailed JSON body, are not modelled. -/

def strTruthy : String → Bool := fun s => s != ""

def objTruthy : GlobalData → Bool := fun _ => true

structure SupplyCache where
  circulating : CacheEntry String
  total : CacheEntry String
  detailed : CacheEntry GlobalData
  deriving Repr, DecidableEq

structure TextResponse where
  body : String
  xCache : Option String
  httpStatus : Nat
  deriving Repr, DecidableEq

structure TextOutcome where
  response : TextResponse
  triggeredRefresh : Bool
  newCache : SupplyCache
  deriving Repr, DecidableEq

/-- The cache table after the three updateCache calls that every
successful fetch of the circulating/total handlers performs (lines
361-364, 341-343, 407-409, 420-422): all three entries replaced from
the same snapshot with the same timestamp. -/
def refreshedCache (data : GlobalData) (now : Int) : SupplyCache :=
  { circulating :=
      updateCache (formatSupply data.totals.circulatingSupply data.totals.decimals) now
    total :=
      updateCache (formatSupply data.totals.totalSupply data.totals.decimals) now
    detailed := updateCache data now }

/-- GET /api/circulating-supply (enhanced variant lines 315-383). -/
def handleCirculating (c : SupplyCache) (now : Int)
    (fetch : Except String GlobalData) : TextOutcome :=
  match getCacheStatus strTruthy c.circulating now with
  | CacheStatus.HIT =>
    { response :=
        { body := (getCachedValue strTruthy c.circulating).getD ""
          xCache := some "HIT"
          httpStatus := 200 }
      triggeredRefresh := false
      newCache := c }
  | CacheStatus.STALE =>
    { response :=
        { body := (getCachedValue strTruthy c.circulating).getD ""
          xCache := some "STALE"
          httpStatus := 200 }
      triggeredRefresh := true
      newCache := c }
  | CacheStatus.MISS =>
    match fetch with
    | Except.ok data =>
      { response :=
          { body := formatSupply data.totals.circulatingSupply data.totals.decimals
            xCache := some "MISS"
            httpStatus := 200 }
        triggeredRefresh := false
        newCache := refreshedCache data now }
    | Except.error _ =>
      match getCachedValue strTruthy c.circulating with
      | some v =>
        { response := { body := v, xCache := some "ERROR-FALLBACK", httpStatus := 200 }
          triggeredRefresh := false
          newCache := c }
      | none =>
        { response := { body := "0", xCache := none, httpStatus := 500 }
          triggeredRefresh := false
          newCache := c }

/-- GET /api/total-supply (enhanced variant lines 389-439). -/
def handleTotal (c : SupplyCache) (now : Int)
    (fetch : Except String GlobalData) : TextOutcome :=
  match getCacheStatus strTruthy c.total now with
  | CacheStatus.HIT =>
    { response :=
        { body := (getCachedValue strTruthy c.total).getD ""
          xCache := some "HIT"
          httpStatus := 200 }
      triggeredRefresh := false
      newCache := c }
  | CacheStatus.STALE =>
    { response :=
        { body := (getCachedValue strTruthy c.total).getD ""
          xCache := some "STALE"
          httpStatus := 200 }
      triggeredRefresh := true
      newCache := c }
  | CacheStatus.MISS =>
    match fetch with
    | Except.ok data =>
      { response :=
          { body := formatSupply data.totals.totalSupply data.totals.decimals
            xCache := some "MISS"
            httpStatus := 200 }
        triggeredRefresh := false
        newCache := refreshedCache data now }
    | Except.error _ =>
      match getCachedValue strTruthy c.total with
      | some v =>
        { response := { body := v, xCache := some "ERROR-FALLBACK", httpStatus := 200 }
          triggeredRefresh := false
          newCache := c }
      | none =>
        { response := { body := "0", xCache := none, httpStatus := 500 }
          triggeredRefresh := false
          newCache := c }

/-- Completion of the fire-and-forget background refresh spawned by the
STALE paths (lines 335-348 and 405-411): on success all three entries
are replaced from the fetched snapshot; on failure the error is only
logged and the cache is left untouched. -/
def applyBackgroundRefresh (c : SupplyCache) (completedAt : Int)
    (result : Except String GlobalData) : SupplyCache :=
  match result with
  | Except.ok data => refreshedCache data completedAt
  | Except.error _ => c

inductive DetailedBody where
  | snapshot (d : GlobalData) (status : CacheStatus)
  | errorJson (msg : String)
  deriving Repr, DecidableEq

structure DetailedOutcome where
  body : DetailedBody
  httpStatus : Nat
  newCache : SupplyCache
  deriving Repr, DecidableEq

/-- GET /api/circulating-supply/detailed (enhanced variant lines
445-468).  On HIT or STALE with a truthy cached snapshot it serves the
cached snapshot; otherwise it fetches synchronously, and on success
updates only the `detailed` entry (line 459), on failure responds 500
with a JSON object carrying the error message (line 466). -/
def handleDetailed (c : SupplyCache) (now : Int)
    (fetch : Except String GlobalData) : DetailedOutcome :=
  let st := getCacheStatus objTruthy c.detailed now
  match
    if st = CacheStatus.HIT ∨ st = CacheStatus.STALE then
      getCachedValue objTruthy c.detailed
    else none
  with
  | some d => { body := DetailedBody.snapshot d st, httpStatus := 200, newCache := c }
  | none =>
    match fetch with
    | Except.ok data =>
      { body := DetailedBody.snapshot data CacheStatus.MISS
        httpStatus := 200
        newCache := { c with detailed := updateCache data now } }
    | Except.error e =>
      { body := DetailedBody.errorJson e, httpStatus := 500, newCache := c }

/-! ### Concrete inputs used by counterexamples and witnesses -/

/-- An arbitrary well-formed global snapshot (used as stale cache content). -/
def gdOld : GlobalData :=
  { ethereum := ⟨"Ethereum", 10, 1, 9⟩
    sonic := ⟨"Sonic", 10, 1, 9⟩
    plasma := ⟨"Plasma", 10, 1, 9⟩
    totals := ⟨27, 30, 3, 18⟩ }

/-- First of two distinguishable global snapshots. -/
def gdOne : GlobalData :=
  { ethereum := ⟨"Ethereum", 100, 10, 90⟩
    sonic := ⟨"Sonic", 100, 10, 90⟩
    plasma := ⟨"Plasma", 100, 10, 90⟩
    totals := ⟨270, 300, 30, 2⟩ }

/-- Second of two distinguishable global snapshots. -/
def gdTwo : GlobalData :=
  { ethereum := ⟨"Ethereum", 41, 0, 41⟩
    sonic := ⟨"Sonic", 41, 0, 41⟩
    plasma := ⟨"Plasma", 41, 0, 41⟩
    totals := ⟨123, 123, 0, 2⟩ }

/-- A cache whose circulating entry is 60000 ms old at time 60000, i.e.
exactly at the STALE boundary. -/
def staleCache : SupplyCache :=
  ⟨⟨some "900000000.0", 0⟩, ⟨none, 0⟩, ⟨none, 0⟩⟩

/-- Chain A of the end-to-end example: raw total 500000000 tokens at 18
decimals, with the excluded balance 50000000 tokens held by the
Ethereum DAO address. -/
def viewA : ChainView :=
  ⟨500000000 * 10 ^ 18,
   fun a => if a = "0x1Ae6DCBc88d6f81A7BCFcCC7198397D776F3592E"
            then 50000000 * 10 ^ 18 else 0⟩

/-- Chain B of the end-to-end example: total 300000000, excluded
30000000 held by the Sonic DAO address. -/
def viewB : ChainView :=
  ⟨300000000 * 10 ^ 18,
   fun a => if a = "0xE2a7De3C3190AFd79C49C8E8f2Fa30Ca78B97DFd"
            then 30000000 * 10 ^ 18 else 0⟩

/-- Chain C of the end-to-end example: total 200000000, excluded
20000000 held by the dead address. -/
def viewC : ChainView :=
  ⟨200000000 * 10 ^ 18,
   fun a => if a = "0x000000000000000000000000000000000000dEaD"
            then 20000000 * 10 ^ 18 else 0⟩

/-- The global snapshot of the end-to-end example. -/
def exampleData : GlobalData :=
  getAllChainsCirculatingSupply
    (mkChainSnapshot "Ethereum" viewA)
    (mkChainSnapshot "Sonic" viewB)
    (mkChainSnapshot "Plasma" viewC) 18

/-! ### Helper lemmas -/

/-- Characterization of getCacheStatus purely by truthiness and age. -/
theorem getCacheStatus_eq_tiers (tr : α → Bool) (e : CacheEntry α) (now : Int) :
    getCacheStatus tr e now =
      if entryHasValue tr e then
        if now - e.timestamp < CACHE_TTL then CacheStatus.HIT
        else if now - e.timestamp < STALE_WHILE_REVALIDATE then CacheStatus.STALE
        else CacheStatus.MISS
      else CacheStatus.MISS := by
  unfold getCacheStatus isCacheFresh isCacheStale
  cases h : entryHasValue tr e
  · simp [h]
  · simp only [h, Bool.true_and, if_true]
    by_cases h1 : now - e.timestamp < CACHE_TTL
    · simp [h1]
    · by_cases h2 : now - e.timestamp < STALE_WHILE_REVALIDATE
      · have h3 : CACHE_TTL ≤ now - e.timestamp := by omega
        simp [h1, h2, h3]
      · simp [h1, h2]

/-! ### Claim theorems -/

/-- C1: a cache entry's status is determined by its age `a = now -
timestamp` against the two thresholds: with a truthy value and
`a < CACHE_TTL` the status is HIT (fresh); with a truthy value and
`CACHE_TTL <= a < STALE_WHILE_REVALIDATE` it is STALE; with
`a >= STALE_WHILE_REVALIDATE`, or no truthy value, it is MISS; right
after updateCache the status is HIT; and as age grows without a
refresh the status never moves backwards in the order
FRESH < STALE < MISS. -/
theorem cache_status_by_age (tr : α → Bool) (e : CacheEntry α) (now : Int) :
    (entryHasValue tr e = true → now - e.timestamp < CACHE_TTL →
      getCacheStatus tr e now = CacheStatus.HIT)
  ∧ (entryHasValue tr e = true → CACHE_TTL ≤ now - e.timestamp →
      now - e.timestamp < STALE_WHILE_REVALIDATE →
      getCacheStatus tr e now = CacheStatus.STALE)
  ∧ (STALE_WHILE_REVALIDATE ≤ now - e.timestamp →
      getCacheStatus tr e now = CacheStatus.MISS)
  ∧ (entryHasValue tr e = false → getCacheStatus tr e now = CacheStatus.MISS)
  ∧ (∀ (v : α), tr v = true → ∀ (t : Int),
      getCacheStatus tr (updateCache v t) t = CacheStatus.HIT)
  ∧ (∀ later, now ≤ later →
      statusRank (getCacheStatus tr e now) ≤ statusRank (getCacheStatus tr e later)) := by
  refine ⟨?_, ?_, ?_, ?_, ?_, ?_⟩
  · intro hv ha
    rw [getCacheStatus_eq_tiers]
    simp [hv, ha]
  · intro hv ha1 ha2
    rw [getCacheStatus_eq_tiers]
    have : ¬ (now - e.timestamp < CACHE_TTL) := by omega
    simp [hv, this, ha2]
  · intro ha
    rw [getCacheStatus_eq_tiers]
    have h1 : ¬ (now - e.timestamp < CACHE_TTL) := by
      unfold CACHE_TTL STALE_WHILE_REVALIDATE at *
      omega
    have h2 : ¬ (now - e.timestamp < STALE_WHILE_REVALIDATE) := by omega
    cases h : entryHasValue tr e <;> simp [h, h1, h2]
  · intro hv
    rw [getCacheStatus_eq_tiers]
    simp [hv]
  · intro v hv t
    rw [getCacheStatus_eq_tiers]
    have hval : entryHasValue tr (updateCache v t) = true := by
      simp [entryHasValue, updateCache, hv]
    have : (t : Int) - (updateCache v t).timestamp < CACHE_TTL := by
      simp [updateCache]
      unfold CACHE_TTL
      omega
    simp [hval, this]
  · intro later hle
    rw [getCacheStatus_eq_tiers, getCacheStatus_eq_tiers]
    cases h : entryHasValue tr e
    · simp
    · by_cases h1 : now - e.timestamp < CACHE_TTL <;>
        by_cases h2 : now - e.timestamp < STALE_WHILE_REVALIDATE <;>
        by_cases h3 : later - e.timestamp < CACHE_TTL <;>
        by_cases h4 : later - e.timestamp < STALE_WHILE_REVALIDATE <;>
        simp [h1, h2, h3, h4, statusRank] <;> omega

/-- Witness for C1 at a concrete entry: value cached at time 0 is HIT at
age 0, STALE at age 60000, MISS at age 300000. -/
theorem cache_status_by_age_witness :
    getCacheStatus strTruthy (⟨some "900000000.0", 0⟩ : CacheEntry String) 0
      = CacheStatus.HIT
  ∧ getCacheStatus strTruthy (⟨some "900000000.0", 0⟩ : CacheEntry String) 60000
      = CacheStatus.STALE
  ∧ getCacheStatus strTruthy (⟨some "900000000.0", 0⟩ : CacheEntry String) 300000
      = CacheStatus.MISS := by
  refine ⟨?_, ?_, ?_⟩
  · exact (cache_status_by_age strTruthy ⟨some "900000000.0", 0⟩ 0).1
      (by decide) (by decide)
  · exact (cache_status_by_age strTruthy ⟨some "900000000.0", 0⟩ 60000).2.1
      (by decide) (by decide) (by decide)
  · exact (cache_status_by_age strTruthy ⟨some "900000000.0", 0⟩ 300000).2.2.1
      (by decide)

/-- C9: in both the basic and the enhanced server variant the
excluded-address list contains the Plasma DAO / migration-contract
address twice, the excluded balance is the plain sum of balanceOf over
the list as given (so that address's balance enters the sum twice), and
the chain's circulating supply subtracts that sum from the total. -/
theorem excluded_address_double_count :
    EXCLUDED_ADDRESSES.count "0x7481b40c3453D0b5D9b8f82427c77C2eCAd397d1" = 2
  ∧ EXCLUDED_ADDRESSES_basic = EXCLUDED_ADDRESSES
  ∧ (∀ bal : String → Int,
      getExcludedBalance bal =
        bal "0x0000000000000000000000000000000000000000"
      + bal "0x000000000000000000000000000000000000dEaD"
      + bal "0x1Ae6DCBc88d6f81A7BCFcCC7198397D776F3592E"
      + bal "0xE2a7De3C3190AFd79C49C8E8f2Fa30Ca78B97DFd"
      + 2 * bal "0x7481b40c3453D0b5D9b8f82427c77C2eCAd397d1")
  ∧ (∀ (chainName : String) (view : ChainView),
      (mkChainSnapshot chainName view).circulatingSupply =
        view.totalSupply - getExcludedBalance view.balanceOf) := by
  refine ⟨by decide, by decide, ?_, ?_⟩
  · intro bal
    simp only [getExcludedBalance, EXCLUDED_ADDRESSES, List.map, List.foldl]
    ring
  · intro chainName view
    rfl

/-- If the endpoint loop produced a success, some listed endpoint
produced exactly that success. -/
theorem tryAux_ok (fn : α → Except ε β) :
    ∀ (urls : List α) (acc : Option ε) (v : β),
      (tryAux fn urls acc).1 = Except.ok v → ∃ u ∈ urls, fn u = Except.ok v := by
  intro urls
  induction urls with
  | nil =>
    intro acc v h
    cases acc <;> simp [tryAux] at h
  | cons u rest ih =>
    intro acc v h
    simp only [tryAux] at h
    cases hf : fn u with
    | ok w =>
      rw [hf] at h
      simp at h
      exact ⟨u, by simp, by rw [hf, h]⟩
    | error e =>
      rw [hf] at h
      simp at h
      obtain ⟨u', hu', hfu'⟩ := ih (some e) v h
      exact ⟨u', by simp [hu'], hfu'⟩

/-- If the endpoint at index j succeeds and all earlier ones fail, the
loop returns that success after trying exactly j + 1 endpoints. -/
theorem tryAux_success (fn : α → Except ε β) :
    ∀ (urls : List α) (acc : Option ε) (j : Nat) (u : α) (v : β),
      urls[j]? = some u → fn u = Except.ok v →
      (∀ (k : Nat) (u' : α), k < j → urls[k]? = some u' →
        ∃ e, fn u' = Except.error e) →
      tryAux fn urls acc = (Except.ok v, j + 1) := by
  intro urls
  induction urls with
  | nil =>
    intro acc j u v hj
    simp at hj
  | cons u0 rest ih =>
    intro acc j u v hj hu hprev
    cases j with
    | zero =>
      simp at hj
      subst hj
      simp [tryAux, hu]
    | succ j' =>
      obtain ⟨e0, he0⟩ := hprev 0 u0 (Nat.succ_pos j') (by simp)
      simp only [tryAux, he0]
      have hj' : rest[j']? = some u := by simpa using hj
      have hprev' : ∀ (k : Nat) (u' : α), k < j' → rest[k]? = some u' →
          ∃ e, fn u' = Except.error e := by
        intro k u' hk hku'
        exact hprev (k + 1) u' (by omega) (by simpa using hku')
      rw [ih (some e0) j' u v hj' hu hprev']

/-- If every endpoint fails, the loop rethrows the error of the last
endpoint, unchanged. -/
theorem tryAux_all_fail (fn : α → Except ε β) :
    ∀ (urls : List α) (acc : Option ε) (ul : α) (e : ε),
      urls.getLast? = some ul → fn ul = Except.error e →
      (∀ u ∈ urls, ∃ e', fn u = Except.error e') →
      (tryAux fn urls acc).1 = Except.error (Sum.inl e) := by
  intro urls
  induction urls with
  | nil =>
    intro acc ul e hl
    simp at hl
  | cons u0 rest ih =>
    intro acc ul e hl hfe hall
    cases rest with
    | nil =>
      simp at hl
      subst hl
      simp [tryAux, hfe]
    | cons u1 rest' =>
      obtain ⟨e0, he0⟩ := hall u0 (by simp)
      have hl' : (u1 :: rest').getLast? = some ul := by
        rw [List.getLast?_cons_cons] at hl
        exact hl
      have hall' : ∀ u ∈ u1 :: rest', ∃ e', fn u = Except.error e' := by
        intro u hu
        exact hall u (by simp [hu])
      simp only [tryAux, he0]
      exact ih (some e0) ul e hl' hfe hall'

/-- C4 (amended): tryRPCEndpoints tries the endpoints in list order and
returns the first success without trying later endpoints (it tries
exactly j + 1 endpoints when index j is the first success); when every
endpoint of a non-empty list fails, it fails by rethrowing the last
endpoint's underlying error itself, unchanged — not a dedicated
all-endpoints-failed Error (that generic Error is created only for an
empty endpoint list). -/
theorem try_endpoints_in_order (urls : List α) (fn : α → Except ε β) :
    (∀ (j : Nat) (u : α) (v : β), urls[j]? = some u → fn u = Except.ok v →
       (∀ (k : Nat) (u' : α), k < j → urls[k]? = some u' →
         ∃ e, fn u' = Except.error e) →
       tryRPCEndpoints urls fn = (Except.ok v, j + 1))
  ∧ (∀ (ul : α) (e : ε), urls.getLast? = some ul → fn ul = Except.error e →
       (∀ u ∈ urls, ∃ e', fn u = Except.error e') →
       (tryRPCEndpoints urls fn).1 = Except.error (Sum.inl e))
  ∧ (urls = [] →
       (tryRPCEndpoints urls fn).1 =
         Except.error (Sum.inr "All RPC endpoints failed")) := by
  refine ⟨?_, ?_, ?_⟩
  · intro j u v hj hu hprev
    exact tryAux_success fn urls none j u v hj hu hprev
  · intro ul e hl hfe hall
    exact tryAux_all_fail fn urls none ul e hl hfe hall
  · intro h
    subst h
    rfl

/-- Witness for C4 at concrete input: with endpoints [1, 2] where
endpoint 1 fails and endpoint 2 succeeds with 7, the query returns 7
after trying exactly 2 endpoints; and with both failing, the result is
the second endpoint's own error. -/
theorem try_endpoints_in_order_witness :
    tryRPCEndpoints [1, 2]
      (fun u => if u = 1 then (Except.error "bad1" : Except String Nat)
                else Except.ok 7) = (Except.ok 7, 2)
  ∧ (tryRPCEndpoints [1, 2]
      (fun u => if u = 1 then (Except.error "bad1" : Except String Nat)
                else Except.error "bad2")).1 = Except.error (Sum.inl "bad2") := by
  constructor
  · exact (try_endpoints_in_order [1, 2]
      (fun u => if u = 1 then (Except.error "bad1" : Except String Nat)
                else Except.ok 7)).1 1 2 7 (by decide)
      (by rfl)
      (by
        intro k u' hk hku'
        have hk0 : k = 0 := by omega
        subst hk0
        simp at hku'
        subst hku'
        exact ⟨"bad1", by rfl⟩)
  · exact (try_endpoints_in_order [1, 2]
      (fun u => if u = 1 then (Except.error "bad1" : Except String Nat)
                else Except.error "bad2")).2.1 2 "bad2" (by decide) (by rfl)
      (by
        intro u hu
        by_cases h1 : u = 1
        · subst h1
          exact ⟨"bad1", by rfl⟩
        · refine ⟨"bad2", ?_⟩
          simp [h1])

/-- Counterexample for C4 as stated: with a single endpoint failing with
error "boom", the reported failure is the raw endpoint error itself
(Sum.inl), not the function's own generic all-endpoints-failed Error
(Sum.inr), so no dedicated AllEndpointsFailedError wrapper carries the
underlying error. -/
theorem try_endpoints_raw_last_error_cex :
    (tryRPCEndpoints ["u"]
      (fun _ => (Except.error "boom" : Except String Nat))).1
      = Except.error (Sum.inl "boom")
  ∧ (tryRPCEndpoints ["u"]
      (fun _ => (Except.error "boom" : Except String Nat))).1
      ≠ Except.error (Sum.inr "All RPC endpoints failed") := by
  refine ⟨rfl, ?_⟩
  intro h
  rw [show (tryRPCEndpoints ["u"]
      (fun _ => (Except.error "boom" : Except String Nat))).1
      = Except.error (Sum.inl "boom") from rfl] at h
  simp at h

/-- Unfolding equation: zero iterations remaining. -/
theorem retryAux_zero (fn : Nat → Except ε β) (d i : Nat) :
    retryAux fn d i 0 = (Except.ok none, 0, []) := rfl

/-- Unfolding equation: the current attempt succeeds. -/
theorem retryAux_ok_eq (fn : Nat → Except ε β) (d i n : Nat) (v : β)
    (hf : fn i = Except.ok v) :
    retryAux fn d i (n + 1) = (Except.ok (some v), 1, []) := by
  unfold retryAux
  rw [hf]

/-- Unfolding equation: the final attempt fails. -/
theorem retryAux_err_last (fn : Nat → Except ε β) (d i : Nat) (e : ε)
    (hf : fn i = Except.error e) :
    retryAux fn d i 1 = (Except.error e, 1, []) := by
  unfold retryAux
  rw [hf]

/-- Unfolding equation: a non-final attempt fails, so the loop waits
d * 2 ^ i and continues. -/
theorem retryAux_err_step (fn : Nat → Except ε β) (d i n : Nat) (e : ε)
    (hf : fn i = Except.error e) :
    retryAux fn d i (n + 2) =
      ((retryAux fn d (i + 1) (n + 1)).1,
       (retryAux fn d (i + 1) (n + 1)).2.1 + 1,
       d * 2 ^ i :: (retryAux fn d (i + 1) (n + 1)).2.2) := by
  conv_lhs => unfold retryAux
  rw [hf]

/-- The retry loop invokes the operation at most as many times as the
iteration bound. -/
theorem retryAux_calls_le (fn : Nat → Except ε β) (d : Nat) :
    ∀ (n i : Nat), (retryAux fn d i n).2.1 ≤ n := by
  intro n
  induction n with
  | zero => intro i; simp [retryAux_zero]
  | succ m ih =>
    intro i
    cases hf : fn i with
    | ok v => simp [retryAux_ok_eq fn d i m v hf]
    | error e =>
      cases m with
      | zero => simp [retryAux_err_last fn d i e hf]
      | succ k =>
        rw [retryAux_err_step fn d i k e hf]
        have := ih (i + 1)
        show (retryAux fn d (i + 1) (k + 1)).2.1 + 1 ≤ k + 1 + 1
        omega

/-- A retry loop with at least one iteration invokes the operation at
least once. -/
theorem retryAux_calls_pos (fn : Nat → Except ε β) (d : Nat) :
    ∀ (n i : Nat), 0 < n → 1 ≤ (retryAux fn d i n).2.1 := by
  intro n i hn
  cases n with
  | zero => omega
  | succ m =>
    cases hf : fn i with
    | ok v => simp [retryAux_ok_eq fn d i m v hf]
    | error e =>
      cases m with
      | zero => simp [retryAux_err_last fn d i e hf]
      | succ k =>
        rw [retryAux_err_step fn d i k e hf]
        show 1 ≤ (retryAux fn d (i + 1) (k + 1)).2.1 + 1
        omega

/-- The sequence of backoff delays awaited by the retry loop starting at
index i is exactly d * 2 ^ (i + k) for k below calls - 1. -/
theorem retryAux_delays (fn : Nat → Except ε β) (d : Nat) :
    ∀ (n i : Nat), (retryAux fn d i n).2.2 =
      (List.range ((retryAux fn d i n).2.1 - 1)).map (fun k => d * 2 ^ (i + k)) := by
  intro n
  induction n with
  | zero => intro i; simp [retryAux_zero]
  | succ m ih =>
    intro i
    cases hf : fn i with
    | ok v => simp [retryAux_ok_eq fn d i m v hf]
    | error e =>
      cases m with
      | zero => simp [retryAux_err_last fn d i e hf]
      | succ k =>
        rw [retryAux_err_step fn d i k e hf]
        have hpos := retryAux_calls_pos fn d (k + 1) (i + 1) (Nat.succ_pos k)
        show d * 2 ^ i :: (retryAux fn d (i + 1) (k + 1)).2.2 =
          (List.range ((retryAux fn d (i + 1) (k + 1)).2.1 + 1 - 1)).map
            (fun a => d * 2 ^ (i + a))
        rw [Nat.add_sub_cancel, ih (i + 1)]
        obtain ⟨c, hc⟩ : ∃ c, (retryAux fn d (i + 1) (k + 1)).2.1 = c + 1 :=
          ⟨(retryAux fn d (i + 1) (k + 1)).2.1 - 1, by omega⟩
        rw [hc, Nat.add_sub_cancel, List.range_succ_eq_map, List.map_cons,
          List.map_map]
        have hfun : ((fun a => d * 2 ^ (i + a)) ∘ Nat.succ) =
            (fun a => d * 2 ^ (i + 1 + a)) := by
          funext a
          simp only [Function.comp_apply]
          congr 2
          omega
        rw [hfun]
        simp

/-- If attempt j (0-indexed) is the first success and lies within the
bound, the loop stops there with its value, having made j + 1 - i
invocations. -/
theorem retryAux_first_success (fn : Nat → Except ε β) (d : Nat) :
    ∀ (n i j : Nat) (v : β), i ≤ j → j < i + n → fn j = Except.ok v →
      (∀ k, i ≤ k → k < j → ∃ e, fn k = Except.error e) →
      (retryAux fn d i n).1 = Except.ok (some v)
    ∧ (retryAux fn d i n).2.1 = j + 1 - i := by
  intro n
  induction n with
  | zero => intro i j v hij hjn; omega
  | succ m ih =>
    intro i j v hij hjn hok hprev
    by_cases hji : j = i
    · subst hji
      rw [retryAux_ok_eq fn d j m v hok]
      refine ⟨rfl, ?_⟩
      show 1 = j + 1 - j
      omega
    · have hij2 : i < j := by omega
      obtain ⟨e, he⟩ := hprev i (le_refl i) hij2
      cases m with
      | zero => omega
      | succ k =>
        have hrec := ih (i + 1) j v (by omega) (by omega) hok
          (fun k2 hk2 hk2p => hprev k2 (by omega) hk2p)
        rw [retryAux_err_step fn d i k e he]
        refine ⟨hrec.1, ?_⟩
        have := hrec.2
        show (retryAux fn d (i + 1) (k + 1)).2.1 + 1 = j + 1 - i
        omega

/-- If every attempt within the bound fails, the loop rethrows the last
attempt's error, unchanged. -/
theorem retryAux_all_fail (fn : Nat → Except ε β) (d : Nat) :
    ∀ (n i : Nat) (e : ε), 0 < n →
      (∀ k, i ≤ k → k < i + n → ∃ e2, fn k = Except.error e2) →
      fn (i + n - 1) = Except.error e →
      (retryAux fn d i n).1 = Except.error e := by
  intro n
  induction n with
  | zero => intro i e h0; omega
  | succ m ih =>
    intro i e _ hall hlast
    cases m with
    | zero =>
      have hfi : fn i = Except.error e := by simpa using hlast
      rw [retryAux_err_last fn d i e hfi]
    | succ k =>
      obtain ⟨e0, he0⟩ := hall i (le_refl i) (by omega)
      have hrec := ih (i + 1) e (Nat.succ_pos k)
        (fun k2 hk2 hk2p => hall k2 (by omega) (by omega))
        (by
          have harith : i + 1 + (k + 1) - 1 = i + (k + 1 + 1) - 1 := by omega
          rw [harith]
          exact hlast)
      rw [retryAux_err_step fn d i k e0 he0]
      exact hrec

/-- A loop that runs at least one iteration never resolves with the
undefined sentinel: a successful outcome holds an actual value. -/
theorem retryAux_ok_some (fn : Nat → Except ε β) (d : Nat) :
    ∀ (n i : Nat) (o : Option β), 0 < n →
      (retryAux fn d i n).1 = Except.ok o → o.isSome = true := by
  intro n
  induction n with
  | zero => intro i o h0; omega
  | succ m ih =>
    intro i o _ hres
    cases hf : fn i with
    | ok v =>
      rw [retryAux_ok_eq fn d i m v hf] at hres
      simp at hres
      simp [← hres]
    | error e =>
      cases m with
      | zero =>
        rw [retryAux_err_last fn d i e hf] at hres
        simp at hres
      | succ k =>
        rw [retryAux_err_step fn d i k e hf] at hres
        exact ih (i + 1) o (Nat.succ_pos k) hres

/-- A successful loop outcome holding a value is the value of some
actual invocation of the operation. -/
theorem retryAux_ok_val (fn : Nat → Except ε β) (d : Nat) :
    ∀ (n i : Nat) (v : β), (retryAux fn d i n).1 = Except.ok (some v) →
      ∃ j, i ≤ j ∧ j < i + n ∧ fn j = Except.ok v := by
  intro n
  induction n with
  | zero =>
    intro i v hres
    rw [retryAux_zero] at hres
    simp at hres
  | succ m ih =>
    intro i v hres
    cases hf : fn i with
    | ok w =>
      rw [retryAux_ok_eq fn d i m w hf] at hres
      simp at hres
      exact ⟨i, le_refl i, by omega, by rw [hf, hres]⟩
    | error e =>
      cases m with
      | zero =>
        rw [retryAux_err_last fn d i e hf] at hres
        simp at hres
      | succ k =>
        rw [retryAux_err_step fn d i k e hf] at hres
        obtain ⟨j, hj1, hj2, hj3⟩ := ih (i + 1) v hres
        exact ⟨j, by omega, by omega, hj3⟩

/-- C5: with maxAttempts >= 1, the retry wrapper invokes the operation
at most maxAttempts times; the delays awaited between attempt i and
attempt i + 1 are exactly baseDelay * 2 ^ i, in order; it stops at the
first successful attempt and returns its result; and when every attempt
fails it propagates the final attempt's error unchanged, without
wrapping. -/
theorem retry_backoff_contract (fn : Nat → Except ε β) (d : Nat) (retries : Nat)
    (h : 1 ≤ retries) :
    ((retryWithBackoff fn d (retries : Int)).2.1 ≤ retries)
  ∧ ((retryWithBackoff fn d (retries : Int)).2.2 =
       (List.range ((retryWithBackoff fn d (retries : Int)).2.1 - 1)).map
         (fun i => d * 2 ^ i))
  ∧ (∀ (j : Nat) (v : β), j < retries → fn j = Except.ok v →
       (∀ k, k < j → ∃ e, fn k = Except.error e) →
       (retryWithBackoff fn d (retries : Int)).1 = Except.ok (some v)
     ∧ (retryWithBackoff fn d (retries : Int)).2.1 = j + 1)
  ∧ (∀ e, (∀ k, k < retries → ∃ e', fn k = Except.error e') →
       fn (retries - 1) = Except.error e →
       (retryWithBackoff fn d (retries : Int)).1 = Except.error e) := by
  have hN : ((retries : Int)).toNat = retries := Int.toNat_natCast retries
  unfold retryWithBackoff
  rw [hN]
  refine ⟨retryAux_calls_le fn d retries 0, ?_, ?_, ?_⟩
  · have hd := retryAux_delays fn d retries 0
    simpa using hd
  · intro j v hj hok hprev
    have hfs := retryAux_first_success fn d retries 0 j v (Nat.zero_le j)
      (by omega) hok (fun k _ hkj => hprev k hkj)
    exact ⟨hfs.1, by have := hfs.2; omega⟩
  · intro e hall hlast
    exact retryAux_all_fail fn d retries 0 e (by omega)
      (fun k _ hk => hall k (by omega)) (by simpa using hlast)

/-- Witness for C5 at a concrete operation: attempt 0 fails, attempt 1
succeeds with 42 — the wrapper returns 42 after exactly 2 invocations,
and the single backoff delay awaited is 1000 * 2 ^ 0. -/
theorem retry_backoff_contract_witness :
    (retryWithBackoff
      (fun i => if i = 0 then (Except.error "e0" : Except String Nat)
                else Except.ok 42) 1000 ((3 : Nat) : Int)).1 = Except.ok (some 42)
  ∧ (retryWithBackoff
      (fun i => if i = 0 then (Except.error "e0" : Except String Nat)
                else Except.ok 42) 1000 ((3 : Nat) : Int)).2.1 = 2 := by
  have h := retry_backoff_contract
    (fun i => if i = 0 then (Except.error "e0" : Except String Nat)
              else Except.ok 42) 1000 3 (by omega)
  exact h.2.2.1 1 42 (by omega) (by rfl)
    (by
      intro k hk
      have hk0 : k = 0 := by omega
      subst hk0
      exact ⟨"e0", by rfl⟩)

/-- C10: with a non-positive retry count the wrapper resolves with the
undefined sentinel (no invocation of the operation, no error); an
actual operation result in a successful outcome is guaranteed only when
the retry count is at least 1. -/
theorem retry_nonpositive_undefined (fn : Nat → Except ε β) (d : Nat)
    (retries : Int) :
    (retries ≤ 0 → retryWithBackoff fn d retries = (Except.ok none, 0, []))
  ∧ (1 ≤ retries → ∀ (o : Option β),
      (retryWithBackoff fn d retries).1 = Except.ok o → o.isSome = true) := by
  constructor
  · intro hr
    unfold retryWithBackoff
    rw [Int.toNat_of_nonpos hr]
    exact retryAux_zero fn d 0
  · intro hr o hres
    unfold retryWithBackoff at hres
    refine retryAux_ok_some fn d retries.toNat 0 o ?_ hres
    omega

/-- Witness for C10: a retry count of -2 yields the undefined sentinel
without any invocation, while a retry count of 3 turns a successful
operation into an actual value. -/
theorem retry_nonpositive_undefined_witness :
    retryWithBackoff (fun _ => (Except.error "boom" : Except String Nat)) 1000 (-2)
      = (Except.ok none, 0, [])
  ∧ (Option.some 7).isSome = true := by
  constructor
  · exact (retry_nonpositive_undefined
      (fun _ => (Except.error "boom" : Except String Nat)) 1000 (-2)).1 (by omega)
  · exact (retry_nonpositive_undefined
      (fun _ => (Except.ok 7 : Except String Nat)) 5 3).2 (by omega) (some 7) (by rfl)

/-- C6: whenever a chain fetch succeeds, the produced snapshot satisfies
circulatingSupply = totalSupply - excludedBalance exactly, in
arbitrary-precision integer arithmetic, and its excluded balance is the
plain sum of balanceOf over the excluded-address list of some chain
view actually read through an endpoint. -/
theorem chain_snapshot_exact (chainName : String) (rpcUrls : List String)
    (query : Nat → String → Except ε ChainView) (d : Nat) (retries : Int)
    (snap : ChainSnapshot)
    (h : getCirculatingSupplyForChain chainName rpcUrls query d retries
           = Except.ok (some snap)) :
    snap.circulatingSupply = snap.totalSupply - snap.excludedBalance
  ∧ ∃ view : ChainView,
      snap = mkChainSnapshot chainName view
    ∧ snap.totalSupply = view.totalSupply
    ∧ snap.excludedBalance =
        (EXCLUDED_ADDRESSES.map view.balanceOf).foldl (· + ·) 0 := by
  unfold getCirculatingSupplyForChain retryWithBackoff at h
  obtain ⟨j, _, _, hfj⟩ := retryAux_ok_val _ d retries.toNat 0 snap h
  obtain ⟨u, _, hfu⟩ := tryAux_ok
    (fun u => (query j u).map (mkChainSnapshot chainName)) rpcUrls none snap hfj
  cases hq : query j u with
  | error e =>
    rw [hq] at hfu
    simp [Except.map] at hfu
  | ok view =>
    rw [hq] at hfu
    simp only [Except.map] at hfu
    have hsnap : mkChainSnapshot chainName view = snap := by
      cases hfu
      rfl
    subst hsnap
    exact ⟨rfl, view, rfl, rfl, rfl⟩

/-- Witness for C6: a one-endpoint chain whose view has total 100 and
every balance 1 (so the six-entry excluded list sums to 6) produces the
snapshot with circulating 94 = 100 - 6. -/
theorem chain_snapshot_exact_witness :
    getCirculatingSupplyForChain "Ethereum" ["u"]
      (fun _ _ => (Except.ok ⟨100, fun _ => 1⟩ : Except String ChainView)) 1000 3
      = Except.ok (some (mkChainSnapshot "Ethereum" ⟨100, fun _ => 1⟩))
  ∧ (mkChainSnapshot "Ethereum" (⟨100, fun _ => 1⟩ : ChainView)).circulatingSupply
      = (mkChainSnapshot "Ethereum" (⟨100, fun _ => 1⟩ : ChainView)).totalSupply
      - (mkChainSnapshot "Ethereum" (⟨100, fun _ => 1⟩ : ChainView)).excludedBalance := by
  refine ⟨rfl, ?_⟩
  exact (chain_snapshot_exact "Ethereum" ["u"]
    (fun _ _ => (Except.ok ⟨100, fun _ => 1⟩ : Except String ChainView)) 1000 3
    (mkChainSnapshot "Ethereum" ⟨100, fun _ => 1⟩) rfl).1

/-- C2 (amended): when the synchronous fetch fails, the plain-text
endpoints serve any previously cached (even expired) value tagged
ERROR-FALLBACK, and return the sentinel "0" with status 500 when no
previous value exists — the caller always receives a response, never
the raw exception; the detailed endpoint, however, responds 500 with a
JSON object carrying the error message even when an expired cached
snapshot exists. -/
theorem fetch_failure_fallback (c : SupplyCache) (now : Int) (e : String) :
    (getCacheStatus strTruthy c.circulating now = CacheStatus.MISS →
       (∀ v, getCachedValue strTruthy c.circulating = some v →
          handleCirculating c now (Except.error e) =
            { response :=
                { body := v, xCache := some "ERROR-FALLBACK", httpStatus := 200 }
              triggeredRefresh := false
              newCache := c })
     ∧ (getCachedValue strTruthy c.circulating = none →
          handleCirculating c now (Except.error e) =
            { response := { body := "0", xCache := none, httpStatus := 500 }
              triggeredRefresh := false
              newCache := c }))
  ∧ (getCacheStatus strTruthy c.total now = CacheStatus.MISS →
       (∀ v, getCachedValue strTruthy c.total = some v →
          handleTotal c now (Except.error e) =
            { response :=
                { body := v, xCache := some "ERROR-FALLBACK", httpStatus := 200 }
              triggeredRefresh := false
              newCache := c })
     ∧ (getCachedValue strTruthy c.total = none →
          handleTotal c now (Except.error e) =
            { response := { body := "0", xCache := none, httpStatus := 500 }
              triggeredRefresh := false
              newCache := c }))
  ∧ (getCacheStatus objTruthy c.detailed now = CacheStatus.MISS →
       handleDetailed c now (Except.error e) =
         { body := DetailedBody.errorJson e, httpStatus := 500, newCache := c }) := by
  refine ⟨fun hst => ⟨?_, ?_⟩, fun hst => ⟨?_, ?_⟩, fun hst => ?_⟩
  · intro v hv
    unfold handleCirculating
    rw [hst, hv]
  · intro hv
    unfold handleCirculating
    rw [hst, hv]
  · intro v hv
    unfold handleTotal
    rw [hst, hv]
  · intro hv
    unfold handleTotal
    rw [hst, hv]
  · unfold handleDetailed
    rw [hst]
    rfl

/-- Witness for C2: with an expired circulating value "OLDC" and a
failing fetch, the circulating endpoint serves "OLDC" tagged
ERROR-FALLBACK; with a cold empty cache it serves the sentinel "0"
with status 500. -/
theorem fetch_failure_fallback_witness :
    handleCirculating ⟨⟨some "OLDC", 0⟩, ⟨some "OLDT", 0⟩, ⟨none, 0⟩⟩ 400000
        (Except.error "neterr")
      = { response :=
            { body := "OLDC", xCache := some "ERROR-FALLBACK", httpStatus := 200 }
          triggeredRefresh := false
          newCache := ⟨⟨some "OLDC", 0⟩, ⟨some "OLDT", 0⟩, ⟨none, 0⟩⟩ }
  ∧ handleCirculating ⟨⟨none, 0⟩, ⟨none, 0⟩, ⟨none, 0⟩⟩ 0 (Except.error "neterr")
      = { response := { body := "0", xCache := none, httpStatus := 500 }
          triggeredRefresh := false
          newCache := ⟨⟨none, 0⟩, ⟨none, 0⟩, ⟨none, 0⟩⟩ } := by
  constructor
  · exact ((fetch_failure_fallback ⟨⟨some "OLDC", 0⟩, ⟨some "OLDT", 0⟩, ⟨none, 0⟩⟩
      400000 "neterr").1 (by decide)).1 "OLDC" (by decide)
  · exact ((fetch_failure_fallback ⟨⟨none, 0⟩, ⟨none, 0⟩, ⟨none, 0⟩⟩
      0 "neterr").1 (by decide)).2 (by decide)

/-- Counterexample for C2 as stated: the detailed endpoint holds an
expired cached snapshot (a previous value exists), its synchronous
fetch fails, and the operation responds with a 500 JSON error object —
it neither serves the cached value tagged ERROR-FALLBACK nor a zero
sentinel. -/
theorem detailed_no_error_fallback_cex :
    (handleDetailed ⟨⟨none, 0⟩, ⟨none, 0⟩, ⟨some gdOld, 0⟩⟩ 300000
        (Except.error "boom")).body = DetailedBody.errorJson "boom"
  ∧ (handleDetailed ⟨⟨none, 0⟩, ⟨none, 0⟩, ⟨some gdOld, 0⟩⟩ 300000
        (Except.error "boom")).httpStatus = 500
  ∧ ((⟨some gdOld, 0⟩ : CacheEntry GlobalData).value.isSome = true) := by
  refine ⟨by decide, by decide, by decide⟩

/-- C3 (amended): the circulating-supply and total-supply handlers'
synchronous-fetch paths, and the background refresh, replace all three
cache entries together from one snapshot with one timestamp; the
detailed handler's synchronous-fetch path instead updates only the
detailed entry, leaving the circulating and total entries untouched. -/
theorem cache_update_scope (c : SupplyCache) (now : Int) (data : GlobalData) :
    (getCacheStatus strTruthy c.circulating now = CacheStatus.MISS →
       (handleCirculating c now (Except.ok data)).newCache = refreshedCache data now)
  ∧ (getCacheStatus strTruthy c.total now = CacheStatus.MISS →
       (handleTotal c now (Except.ok data)).newCache = refreshedCache data now)
  ∧ applyBackgroundRefresh c now (Except.ok data) = refreshedCache data now
  ∧ (refreshedCache data now).circulating =
      updateCache (formatSupply data.totals.circulatingSupply data.totals.decimals) now
  ∧ (refreshedCache data now).total =
      updateCache (formatSupply data.totals.totalSupply data.totals.decimals) now
  ∧ (refreshedCache data now).detailed = updateCache data now
  ∧ (getCacheStatus objTruthy c.detailed now = CacheStatus.MISS →
       (handleDetailed c now (Except.ok data)).newCache.circulating = c.circulating
     ∧ (handleDetailed c now (Except.ok data)).newCache.total = c.total
     ∧ (handleDetailed c now (Except.ok data)).newCache.detailed = updateCache data now) := by
  refine ⟨fun hst => ?_, fun hst => ?_, rfl, rfl, rfl, rfl, fun hst => ?_⟩
  · unfold handleCirculating
    rw [hst]
  · unfold handleTotal
    rw [hst]
  · refine ⟨?_, ?_, ?_⟩ <;> (unfold handleDetailed; rw [hst]; rfl)

/-- Witness for C3: on an empty cache, a successful circulating-supply
fetch installs all three entries from the snapshot, while a successful
detailed fetch leaves the circulating entry untouched. -/
theorem cache_update_scope_witness :
    (handleCirculating ⟨⟨none, 0⟩, ⟨none, 0⟩, ⟨none, 0⟩⟩ 0
        (Except.ok gdOld)).newCache = refreshedCache gdOld 0
  ∧ (handleDetailed ⟨⟨none, 0⟩, ⟨none, 0⟩, ⟨none, 0⟩⟩ 0
        (Except.ok gdOld)).newCache.circulating
      = (⟨⟨none, 0⟩, ⟨none, 0⟩, ⟨none, 0⟩⟩ : SupplyCache).circulating := by
  constructor
  · exact (cache_update_scope ⟨⟨none, 0⟩, ⟨none, 0⟩, ⟨none, 0⟩⟩ 0 gdOld).1 (by decide)
  · exact ((cache_update_scope ⟨⟨none, 0⟩, ⟨none, 0⟩, ⟨none, 0⟩⟩ 0 gdOld).2.2.2.2.2.2
      (by decide)).1

/-- Counterexample for C3 as stated: with all entries expired, a
successful synchronous fetch through the detailed endpoint installs the
new snapshot gdTwo in the detailed entry while the circulating entry
still holds "OLD", a value not derived from gdTwo — the three derived
entries are not replaced together. -/
theorem detailed_update_not_atomic_cex :
    (handleDetailed ⟨⟨some "OLD", 0⟩, ⟨some "OLDT", 0⟩, ⟨some gdOne, 0⟩⟩ 300000
        (Except.ok gdTwo)).newCache.detailed.value = some gdTwo
  ∧ (handleDetailed ⟨⟨some "OLD", 0⟩, ⟨some "OLDT", 0⟩, ⟨some gdOne, 0⟩⟩ 300000
        (Except.ok gdTwo)).newCache.circulating.value = some "OLD"
  ∧ "OLD" ≠ formatSupply gdTwo.totals.circulatingSupply gdTwo.totals.decimals
  ∧ gdOne ≠ gdTwo := by
  refine ⟨by decide, by decide, by decide, by decide⟩

/-- C8 (amended): every request that observes the circulating entry in
the STALE zone triggers its own background refresh — the code keeps no
in-flight marker, so the synchronous cache state is left unchanged and
concurrent STALE observers each trigger one; the response served to
such a caller does not depend on the fetch outcome, and a failed
background refresh leaves the cache untouched (the failure is only
logged, never surfaced). -/
theorem stale_refresh_behavior (c : SupplyCache) (now : Int)
    (f f2 : Except String GlobalData) :
    (getCacheStatus strTruthy c.circulating now = CacheStatus.STALE →
       (handleCirculating c now f).triggeredRefresh = true
     ∧ (handleCirculating c now f).response = (handleCirculating c now f2).response
     ∧ (handleCirculating c now f).newCache = c)
  ∧ (∀ e, applyBackgroundRefresh c now (Except.error e) = c) := by
  constructor
  · intro hst
    unfold handleCirculating
    rw [hst]
    exact ⟨rfl, rfl, rfl⟩
  · intro e
    rfl

/-- Witness for C8 at a concrete stale cache: a request at age 60000
triggers the background refresh and leaves the cache unchanged. -/
theorem stale_refresh_behavior_witness :
    (handleCirculating staleCache 60000 (Except.error "bg")).triggeredRefresh = true
  ∧ (handleCirculating staleCache 60000 (Except.error "bg")).newCache = staleCache := by
  have h := (stale_refresh_behavior staleCache 60000 (Except.error "bg")
    (Except.ok gdOld)).1 (by decide)
  exact ⟨h.1, h.2.2⟩

/-- Counterexample for C8 as stated: two requests that both observe the
same STALE cache state (the first leaves the state unchanged, so a
concurrent second request observes it too) each trigger a background
refresh — two refreshes, not at most one. -/
theorem stale_refresh_not_deduplicated_cex :
    (handleCirculating staleCache 60000 (Except.error "bg")).newCache = staleCache
  ∧ (handleCirculating staleCache 60000 (Except.error "bg")).triggeredRefresh = true
  ∧ (handleCirculating staleCache 61000 (Except.error "bg")).triggeredRefresh = true := by
  refine ⟨by decide, by decide, by decide⟩

/-- C7 (code evaluated at the spec's end-to-end example): the three
chains produce circulating 450000000, 270000000 and 180000000 tokens
(raw, at 18 decimals); the global snapshot sums to circulating
900000000 and total 1000000000 tokens; but the circulating-supply
endpoint's body is the string "900000000.0" — ethers formatUnits keeps
a trailing fractional digit — not the exact string "900000000" that the
claim and the repository README state. -/
theorem example_pipeline_output :
    (mkChainSnapshot "Ethereum" viewA).circulatingSupply = 450000000 * 10 ^ 18
  ∧ (mkChainSnapshot "Sonic" viewB).circulatingSupply = 270000000 * 10 ^ 18
  ∧ (mkChainSnapshot "Plasma" viewC).circulatingSupply = 180000000 * 10 ^ 18
  ∧ exampleData.totals.circulatingSupply = 900000000 * 10 ^ 18
  ∧ exampleData.totals.totalSupply = 1000000000 * 10 ^ 18
  ∧ (handleCirculating ⟨⟨none, 0⟩, ⟨none, 0⟩, ⟨none, 0⟩⟩ 0
        (Except.ok exampleData)).response.body = "900000000.0"
  ∧ "900000000.0" ≠ "900000000" := by
  refine ⟨by decide, by decide, by decide, by decide, by decide, by decide, by decide⟩

end TreveeSupply
